import Mathlib

/-!
Shallow embedding of the TickEye data-acquisition and alerting core:
the tabular data model, the dynamic column lookup and rules of
`src/monitor/rules.py`, the TTL cache, retrying fetcher and batch
dispatcher of `src/monitor/robust_market_fetcher.py`, the simple
fetcher of `src/monitor/fetcher.py`, and the code resolver and retry
decorator of `src/fund_analysis.py`.  Numeric values are modelled as
rationals, pandas cells as a tagged `Value` type (number, string, or
NA), and a pandas DataFrame as a column-name list plus rows given as
association lists from column name to cell value.
-/

namespace TickEye

/-- A pandas cell: NA/NaN, a string, or a number (floats modelled as ℚ). -/
inductive Value where
  | na : Value
  | str (s : String) : Value
  | num (q : ℚ) : Value
deriving DecidableEq

/-- A DataFrame row: association list from column name to cell value. -/
abbrev Row := List (String × Value)

/-- A pandas DataFrame: ordered column names and ordered rows. -/
structure DataFrame where
  columns : List String
  rows : List Row
deriving DecidableEq

/-- `row[col]`: a key absent from the row reads as NA. -/
def rowGet (r : Row) (c : String) : Value :=
  (r.lookup c).getD .na

/-- Python `p in s` on strings: substring containment (empty p matches). -/
def strContains (s p : String) : Bool :=
  go p.toList s.toList
where
  go (p l : List Char) : Bool :=
    p.isPrefixOf l ||
      match l with
      | [] => false
      | _ :: t => go p t

/-- Python `str.isdigit()` restricted to ASCII digits: nonempty, all digits. -/
def pyIsDigit (s : String) : Bool :=
  !s.toList.isEmpty && s.toList.all Char.isDigit

/-- Python `str.isalnum()` restricted to ASCII: nonempty, all letters/digits. -/
def pyIsAlnum (s : String) : Bool :=
  !s.toList.isEmpty && s.toList.all Char.isAlphanum

/-- Python `str.upper()` (ASCII letters; other characters unchanged). -/
def pyUpper (s : String) : String :=
  String.mk (s.toList.map Char.toUpper)

/-- Strip leading and trailing whitespace from a character list. -/
def stripChars (cs : List Char) : List Char :=
  ((cs.dropWhile Char.isWhitespace).reverse.dropWhile Char.isWhitespace).reverse

/-- Python `str.strip()` with no argument: remove surrounding whitespace. -/
def pyStrip (s : String) : String :=
  String.mk (stripChars s.toList)

/-- Python `str.startswith(p)`. -/
def pyStartsWith (s p : String) : Bool :=
  p.toList.isPrefixOf s.toList

/-- Python slicing `s[n:]` (character-based). -/
def pyDropChars (s : String) (n : ℕ) : String :=
  String.mk (s.toList.drop n)

/-- Natural number denoted by a list of decimal digit characters. -/
def digitsToNat (cs : List Char) : ℕ :=
  cs.foldl (fun a c => a * 10 + (c.toNat - 48)) 0

/-- Model of Python `float(str)` on decimal numerals: optional surrounding
whitespace, optional sign, digits with an optional fractional part
(`"5."` and `".5"` are accepted, a bare `"."` or any other character is
not).  Exponents and the special values inf/nan are outside the model;
`none` stands for a raised `ValueError`. -/
def parsePyFloat (s : String) : Option ℚ :=
  let cs := stripChars s.toList
  let signed : ℚ × List Char :=
    match cs with
    | '-' :: rest => (-1, rest)
    | '+' :: rest => (1, rest)
    | _ => (1, cs)
  let intPart := signed.2.takeWhile Char.isDigit
  let rest := signed.2.dropWhile Char.isDigit
  match rest with
  | [] =>
    if intPart.isEmpty then none
    else some (signed.1 * (digitsToNat intPart : ℚ))
  | '.' :: frac =>
    if frac.all Char.isDigit && !(intPart.isEmpty && frac.isEmpty) then
      some (signed.1 *
        ((digitsToNat intPart : ℚ) + (digitsToNat frac : ℚ) / (10 ^ frac.length)))
    else none
  | _ => none

/-- Python `float(value)` on a cell.  A numeric cell converts to itself
(`float(str(x)) == x`), a string cell is parsed, and an NA cell yields
`none`: `float(nan)` returns NaN, which compares false against every
threshold, so for the rules' observable behaviour (the alert list) NaN
and a raised `ValueError` coincide and both are modelled as `none`. -/
def pyFloatValue : Value → Option ℚ
  | .na => none
  | .str s => parsePyFloat s
  | .num q => some q

/-! ### FieldHelper (src/monitor/rules.py lines 36-119) -/

/-- `FieldHelper.find_column`: `None` on an empty frame; otherwise the
first pattern wins, trying an exact column match before the first
column that contains the pattern as a substring. -/
def find_column (df : DataFrame) (patterns : List String) : Option String :=
  if df.rows.isEmpty then none
  else
    patterns.findSome? fun p =>
      if df.columns.contains p then some p
      else df.columns.find? fun col => strContains col p

/-- `FieldHelper.get_fund_code_column`. -/
def get_fund_code_column (df : DataFrame) : Option String :=
  find_column df ["基金代码", "fund_code", "代码"]

/-- `FieldHelper.get_fund_name_column`. -/
def get_fund_name_column (df : DataFrame) : Option String :=
  find_column df ["基金简称", "基金名称", "fund_name", "简称", "名称"]

/-- `FieldHelper.get_net_value_column`. -/
def get_net_value_column (df : DataFrame) : Option String :=
  find_column df ["单位净值", "net_value", "净值"]

/-- `FieldHelper.get_change_rate_column`. -/
def get_change_rate_column (df : DataFrame) : Option String :=
  find_column df ["日增长率", "增长率", "涨跌率", "涨幅", "change_rate"]

/-- `FieldHelper.parse_percentage`: NA parses to `0.0`; otherwise the
string form is stripped, `%` signs are removed, and `float` conversion
is attempted, defaulting to `0.0` on failure. -/
def parse_percentage : Value → ℚ
  | .na => 0
  | .num q => q
  | .str s =>
    (parsePyFloat (String.mk ((stripChars s.toList).filter fun ch => ch ≠ '%'))).getD 0

/-! ### Rules (src/monitor/rules.py lines 122-259) -/

/-- An alert record as built by the rules (the human-readable `message`
string, pure presentation assembled from the other fields, is omitted). -/
structure Alert where
  fund_code : Value
  fund_name : Value
  value : ℚ
  rule_name : String
deriving DecidableEq

/-- `PercentageDropRule` construction data (`fund_codes or []`). -/
structure PercentageDropRule where
  name : String
  threshold : ℚ
  fund_codes : List String
deriving DecidableEq

/-- Does a cell occur in a list of code strings (pandas `isin`)? -/
def valueIsIn (v : Value) (codes : List String) : Bool :=
  match v with
  | .str s => codes.contains s
  | _ => false

/-- `PercentageDropRule.check`: resolve the code/name/rate columns
(missing columns abort with an empty list), optionally filter to the
configured fund codes, then emit one alert per row whose parsed change
rate is `<= -threshold`. -/
def percentageDropCheck (rule : PercentageDropRule) (data : DataFrame) : List Alert :=
  if data.rows.isEmpty then []
  else
    match get_fund_code_column data, get_fund_name_column data,
        get_change_rate_column data with
    | some code_col, some name_col, some rate_col =>
      let filtered :=
        if rule.fund_codes.isEmpty then data.rows
        else data.rows.filter fun r => valueIsIn (rowGet r code_col) rule.fund_codes
      filtered.filterMap fun r =>
        let change_rate := parse_percentage (rowGet r rate_col)
        if change_rate ≤ -rule.threshold then
          some ⟨rowGet r code_col, rowGet r name_col, change_rate, rule.name⟩
        else none
    | _, _, _ => []

/-- `PriceThresholdRule` construction data (the operator is kept as the
raw string, as in the source: anything other than "below"/"above"
never triggers). -/
structure PriceThresholdRule where
  name : String
  fund_code : String
  threshold : ℚ
  operator : String
deriving DecidableEq

/-- `PriceThresholdRule.check`: resolve columns, take the first row whose
code equals the configured fund code, convert its net value with
`float`, and alert on a strict comparison against the threshold. -/
def priceThresholdCheck (rule : PriceThresholdRule) (data : DataFrame) : List Alert :=
  if data.rows.isEmpty then []
  else
    match get_fund_code_column data, get_fund_name_column data,
        get_net_value_column data with
    | some code_col, some name_col, some value_col =>
      match data.rows.filter
          (fun r => decide (rowGet r code_col = Value.str rule.fund_code)) with
      | [] => []
      | fund :: _ =>
        match pyFloatValue (rowGet fund value_col) with
        | none => []
        | some current_value =>
          if rule.operator = "below" ∧ current_value < rule.threshold then
            [⟨rowGet fund code_col, rowGet fund name_col, current_value, rule.name⟩]
          else if rule.operator = "above" ∧ current_value > rule.threshold then
            [⟨rowGet fund code_col, rowGet fund name_col, current_value, rule.name⟩]
          else []
    | _, _, _ => []

/-! ### RuleEngine (src/monitor/rules.py lines 262-311)

A registered rule is abstracted as a function from the data frame to
`Except String (List Alert)`: `Except.error` models `rule.check`
raising, which `check_all_rules` catches and isolates. -/

/-- A registered rule as seen by the engine. -/
abbrev RuleFun := DataFrame → Except String (List Alert)

/-- `RuleEngine.check_all_rules`: empty input short-circuits to `[]`;
otherwise rules run in registration order, each contribution appended,
a raised error contributing nothing and stopping nothing. -/
def check_all_rules (rules : List RuleFun) (data : DataFrame) : List Alert :=
  if data.rows.isEmpty then []
  else rules.foldl (fun acc r => acc ++ ((r data).toOption.getD [])) []

/-! ### RobustMarketFetcher (src/monitor/robust_market_fetcher.py)

The fetcher's mutable state is its two cache dictionaries and its
configuration; wall-clock time (`time.time()`) is passed explicitly.
The upstream API (`akshare`) is an opaque capability: the result of the
i-th invocation of the wrapped call is a parameter `op : ℕ → ApiResult`. -/

/-- Outcome of one upstream API invocation: a returned value (possibly
`None` or an empty frame) or a raised exception. -/
inductive ApiResult where
  | ret (df : Option DataFrame) : ApiResult
  | exn (msg : String) : ApiResult
deriving DecidableEq

/-- The success test of `_retry_api_call`:
`result is not None and not result.empty`. -/
def apiSuccess : ApiResult → Option DataFrame
  | .ret (some df) => if df.rows.isEmpty then none else some df
  | _ => none

/-- `RobustMarketFetcher` state: the `_cache` dict (values may be
`None`, as `_set_cache` stores `None` payloads verbatim), the
`_cache_time` dict, and the constructor configuration. -/
structure FetcherState where
  cache : List (String × Option DataFrame)
  cacheTime : List (String × ℚ)
  cacheDuration : ℚ
  maxRetries : ℕ
deriving DecidableEq

/-- `RobustMarketFetcher._is_cache_valid`: a timestamped key is valid
while `time.time() - self._cache_time[key] < self.cache_duration`
(strict); an untimestamped key is invalid. -/
def is_cache_valid (st : FetcherState) (now : ℚ) (key : String) : Bool :=
  match st.cacheTime.lookup key with
  | none => false
  | some t => decide (now - t < st.cacheDuration)

/-- `RobustMarketFetcher._set_cache` at wall-clock time `now` (the
`df.copy()` is identity in this pure model). -/
def set_cache (st : FetcherState) (now : ℚ) (key : String)
    (data : Option DataFrame) : FetcherState :=
  { st with
    cache := (key, data) :: st.cache
    cacheTime := (key, now) :: st.cacheTime }

/-- `RobustMarketFetcher._get_cache`: the stored payload when the key is
valid (which may itself be `None`), else `None`. -/
def get_cache (st : FetcherState) (now : ℚ) (key : String) : Option DataFrame :=
  if is_cache_valid st now key then (st.cache.lookup key).getD none
  else none

/-- The retry loop of `_retry_api_call` starting at invocation index
`i` with `fuel` loop iterations left: return the first non-None,
nonempty result. -/
def retryFrom (op : ℕ → ApiResult) (i : ℕ) : ℕ → Option DataFrame
  | 0 => none
  | fuel + 1 =>
    match apiSuccess (op i) with
    | some df => some df
    | none => retryFrom op (i + 1) fuel

/-- `RobustMarketFetcher._retry_api_call`: the loop runs over
`range(max_retries + 1)`, so the attempt budget is `max_retries + 1`;
`None` is returned when every attempt fails or comes back empty. -/
def retry_api_call (op : ℕ → ApiResult) (max_retries : ℕ) : Option DataFrame :=
  retryFrom op 0 (max_retries + 1)

/-- Number of invocations of `api_func` that `_retry_api_call` performs,
starting at index `i` with `fuel` iterations left. -/
def retryCallsFrom (op : ℕ → ApiResult) (i : ℕ) : ℕ → ℕ
  | 0 => 0
  | fuel + 1 =>
    match apiSuccess (op i) with
    | some _ => 1
    | none => 1 + retryCallsFrom op (i + 1) fuel

/-- Number of invocations of `api_func` performed by `_retry_api_call`. -/
def retry_api_call_count (op : ℕ → ApiResult) (max_retries : ℕ) : ℕ :=
  retryCallsFrom op 0 (max_retries + 1)

/-- pandas `to_numeric(errors="coerce")` on one cell: numeric strings
convert, anything unparsable (including `%`-suffixed strings) becomes
NaN. -/
def coerceNumeric : Value → Value
  | .na => .na
  | .num q => .num q
  | .str s =>
    match parsePyFloat s with
    | some q => .num q
    | none => .na

/-- Apply `to_numeric` coercion to the listed columns of a frame
(each only when it is among the frame's columns, as in the source). -/
def coerceCols (df : DataFrame) (cols : List String) : DataFrame :=
  { df with
    rows := df.rows.map fun r =>
      r.map fun kv =>
        (kv.1,
          if cols.contains kv.1 && df.columns.contains kv.1 then coerceNumeric kv.2
          else kv.2) }

/-- Row filter of the cleaning step: the code cell is a non-null string
of length 6 (pandas `dropna` plus `.str.len() == 6`; a non-string cell
has NaN string length and is dropped). -/
def codeLen6 (codeCol : String) (r : Row) : Bool :=
  match rowGet r codeCol with
  | .str s => s.length == 6
  | _ => false

/-- `RobustMarketFetcher._clean_fund_data`: when the `基金代码` column is
present, keep only rows whose code is a 6-character string, then coerce
the numeric columns. -/
def clean_fund_data (df : DataFrame) : DataFrame :=
  if df.rows.isEmpty then df
  else
    let df1 :=
      if df.columns.contains "基金代码" then
        { df with rows := df.rows.filter (codeLen6 "基金代码") }
      else df
    coerceCols df1 ["日增长值", "日增长率"]

/-- `RobustMarketFetcher._clean_stock_data`: same shape over the `代码`
column and the stock numeric columns. -/
def clean_stock_data (df : DataFrame) : DataFrame :=
  if df.rows.isEmpty then df
  else
    let df1 :=
      if df.columns.contains "代码" then
        { df with rows := df.rows.filter (codeLen6 "代码") }
      else df
    coerceCols df1 ["最新价", "涨跌幅", "涨跌额", "成交量", "成交额"]

/-- `RobustMarketFetcher._filter_by_codes`: empty frame or empty code
list pass through; otherwise the code column is the first column whose
name contains `基金代码` or `代码` (funds) resp. `代码` (stocks), a missing
column yields `None`, and an empty filter result yields `None`. -/
def filter_by_codes (df : DataFrame) (codes : List String)
    (data_type : String) : Option DataFrame :=
  if df.rows.isEmpty || codes.isEmpty then some df
  else
    let code_column :=
      if data_type = "基金" then
        df.columns.find? fun col => strContains col "基金代码" || strContains col "代码"
      else
        df.columns.find? fun col => strContains col "代码"
    match code_column with
    | none => none
    | some cc =>
      let filtered := df.rows.filter fun r => valueIsIn (rowGet r cc) codes
      if filtered.isEmpty then none else some { df with rows := filtered }

/-- `RobustMarketFetcher.get_fund_data_robust` (codes `None` is the empty
list): serve a valid cache entry, else fetch with retry; a successful
fetch is cleaned, cached, and filtered to the requested codes; a failed
fetch returns `None` without consulting the (expired) cache. -/
def get_fund_data_robust (st : FetcherState) (now : ℚ) (op : ℕ → ApiResult)
    (codes : List String) : Option DataFrame × FetcherState :=
  match get_cache st now "fund_all_data" with
  | some cached =>
    (if codes.isEmpty then some cached else filter_by_codes cached codes "基金", st)
  | none =>
    match retry_api_call op st.maxRetries with
    | some df0 =>
      let df := clean_fund_data df0
      let st' := set_cache st now "fund_all_data" (some df)
      (if codes.isEmpty then some df else filter_by_codes df codes "基金", st')
    | none => (none, st)

/-- `RobustMarketFetcher.get_stock_data_robust`, parallel to the fund
variant over the `stock_all_data` key. -/
def get_stock_data_robust (st : FetcherState) (now : ℚ) (op : ℕ → ApiResult)
    (codes : List String) : Option DataFrame × FetcherState :=
  match get_cache st now "stock_all_data" with
  | some cached =>
    (if codes.isEmpty then some cached else filter_by_codes cached codes "股票", st)
  | none =>
    match retry_api_call op st.maxRetries with
    | some df0 =>
      let df := clean_stock_data df0
      let st' := set_cache st now "stock_all_data" (some df)
      (if codes.isEmpty then some df else filter_by_codes df codes "股票", st')
    | none => (none, st)

/-- One watchlist entry of `batch_query`: `{"code": ..., "type": ...}`. -/
structure WatchItem where
  code : String
  wtype : String
deriving DecidableEq

/-- The `summary` dict assembled by `batch_query`. -/
structure BatchSummary where
  total_requested : ℕ
  funds_requested : ℕ
  stocks_requested : ℕ
  funds_found : ℕ
  stocks_found : ℕ
  success_rate : ℚ
deriving DecidableEq

/-- The result dict of `batch_query`. -/
structure BatchResult where
  funds : Option DataFrame
  stocks : Option DataFrame
  summary : BatchSummary
deriving DecidableEq

/-- The summary assembled at the end of `batch_query`:
`success_rate = (total_found / total_requested * 100) if total_requested > 0 else 0`. -/
def summaryWithRate (total freq sreq ffound sfound : ℕ) : BatchSummary :=
  { total_requested := total
    funds_requested := freq
    stocks_requested := sreq
    funds_found := ffound
    stocks_found := sfound
    success_rate :=
      if 0 < total then ((ffound + sfound : ℕ) : ℚ) / (total : ℚ) * 100 else 0 }

/-- `RobustMarketFetcher.batch_query`: partition the watchlist by type,
fetch each nonempty partition through the robust fetchers (`opF`/`opS`
being the upstream calls for funds resp. stocks), count found rows, and
compute `success_rate = total_found / total_requested * 100` guarded by
`total_requested > 0`. -/
def batch_query (st : FetcherState) (now : ℚ) (opF opS : ℕ → ApiResult)
    (watchlist : List WatchItem) : BatchResult :=
  let fund_codes := (watchlist.filter fun item => item.wtype = "fund").map (·.code)
  let stock_codes := (watchlist.filter fun item => item.wtype = "stock").map (·.code)
  let fundsRes :=
    if fund_codes.isEmpty then (none, st)
    else get_fund_data_robust st now opF fund_codes
  let funds : Option DataFrame :=
    match fundsRes.1 with
    | some df => if df.rows.isEmpty then none else some df
    | none => none
  let funds_found := (funds.map fun df => df.rows.length).getD 0
  let stocksRes :=
    if stock_codes.isEmpty then (none, fundsRes.2)
    else get_stock_data_robust fundsRes.2 now opS stock_codes
  let stocks : Option DataFrame :=
    match stocksRes.1 with
    | some df => if df.rows.isEmpty then none else some df
    | none => none
  let stocks_found := (stocks.map fun df => df.rows.length).getD 0
  { funds := funds
    stocks := stocks
    summary :=
      summaryWithRate watchlist.length fund_codes.length stock_codes.length
        funds_found stocks_found }

/-! ### SimpleFundDataFetcher (src/monitor/fetcher.py lines 19-122) -/

/-- `SimpleFundDataFetcher` state: `_cache` (set only on success, never
to `None`) and `_last_fetch_time`; `CACHE_EXPIRE_TIME = 120`. -/
structure SimpleFetcherState where
  cache : List (String × DataFrame)
  lastFetchTime : List (String × ℚ)
deriving DecidableEq

/-- `SimpleFundDataFetcher._is_cache_valid` with the module constant
`CACHE_EXPIRE_TIME = 120`. -/
def simple_is_cache_valid (st : SimpleFetcherState) (now : ℚ)
    (cache_type : String) : Bool :=
  match st.lastFetchTime.lookup cache_type with
  | none => false
  | some t => decide (now - t < 120)

/-- `SimpleFundDataFetcher._clean_data`: the fund-code row filter only. -/
def simple_clean_data (df : DataFrame) : DataFrame :=
  if df.rows.isEmpty then df
  else if df.columns.contains "基金代码" then
    { df with rows := df.rows.filter (codeLen6 "基金代码") }
  else df

/-- `SimpleFundDataFetcher.get_open_fund_data`: a valid cache entry is
served (unless `force_refresh`); one upstream call is made; a non-None
nonempty return is cleaned, cached and returned; a `None`/empty return
yields `None` even when a cache entry exists; a raised exception falls
back to the cached payload when one exists, else `None`. -/
def get_open_fund_data (st : SimpleFetcherState) (now : ℚ) (api : ApiResult)
    (force_refresh : Bool) : Option DataFrame × SimpleFetcherState :=
  let key := "open_fund"
  if !force_refresh && simple_is_cache_valid st now key then
    (st.cache.lookup key, st)
  else
    match api with
    | .ret v =>
      match v with
      | some df =>
        if df.rows.isEmpty then (none, st)
        else
          let df' := simple_clean_data df
          (some df',
            { cache := (key, df') :: st.cache
              lastFetchTime := (key, now) :: st.lastFetchTime })
      | none => (none, st)
    | .exn _ => (st.cache.lookup key, st)

/-! ### Code resolver and retry decorator (src/fund_analysis.py) -/

/-- One entry of the alias table `indices_config.json`
(`{"symbol": ..., "market": ..., "name": ...}`, each key optional). -/
structure AliasEntry where
  symbol : Option String
  market : Option String
  name : Option String
deriving DecidableEq

/-- The instrument kind in a resolver result dict. -/
inductive CodeType where
  | fund : CodeType
  | index : CodeType
deriving DecidableEq

/-- The resolver result dict
`{"type", "market", "symbol", "alias_name"}`. -/
structure ResolvedCode where
  ctype : CodeType
  market : Option String
  symbol : String
  alias_name : Option String
deriving DecidableEq

/-- Python `str.replace('_', '')`. -/
def removeUnderscores (s : String) : String :=
  (s.toList.filter fun ch => ch ≠ '_').asString

/-- Branch 3 test of `resolve_code`: 8 characters, `sh`/`sz` two-letter
market, 6 trailing digits. -/
def shapeCnIndex (c : String) : Bool :=
  c.toList.length == 8 && (pyStartsWith c "sh" || pyStartsWith c "sz")
    && pyIsDigit (pyDropChars c 2)

/-- Branch 4 test of `resolve_code`:
`cu == c and 2 <= len(cu) <= 10 and cu.replace('_', '').isalnum()` —
note underscores are removed before the `isalnum` test, so tokens
containing underscores pass. -/
def shapeGlobalToken (c : String) : Bool :=
  pyUpper c == c && 2 ≤ c.toList.length && c.toList.length ≤ 10
    && pyIsAlnum (removeUnderscores (pyUpper c))

/-- `resolve_code`: classification order is alias table (exact then
uppercased), all-digits → fund, 8-character `sh`/`sz` + 6 digits →
domestic index, then the uppercase short-token test → global index;
otherwise unresolved (`{}` modelled as `none`). -/
def resolve_code (aliases : List (String × AliasEntry)) (code : String) :
    Option ResolvedCode :=
  if code = "" then none
  else
    let c := pyStrip code
    if c = "" then none
    else
      match aliases.lookup c with
      | some v => some ⟨.index, v.market, v.symbol.getD c, v.name⟩
      | none =>
        let cu := pyUpper c
        match aliases.lookup cu with
        | some v => some ⟨.index, v.market, v.symbol.getD cu, v.name⟩
        | none =>
          if pyIsDigit c then some ⟨.fund, none, c, none⟩
          else if shapeCnIndex c then some ⟨.index, some "cn", c, none⟩
          else if shapeGlobalToken c then some ⟨.index, some "global", cu, none⟩
          else none

/-- The loop of the `retry_api_call` decorator in `fund_analysis.py`
(`for attempt in range(max_retries)`): a return (any value) succeeds, an
exception on the last attempt is re-raised; with `max_retries = 0` the
loop body never runs and `raise last_exception` raises (`TypeError` on
`None`), modelled as an error with empty message. -/
def decoratorFrom (op : ℕ → ApiResult) (i : ℕ) :
    ℕ → Except String (Option DataFrame)
  | 0 => .error ""
  | 1 =>
    match op i with
    | .ret v => .ok v
    | .exn e => .error e
  | fuel + 2 =>
    match op i with
    | .ret v => .ok v
    | .exn _ => decoratorFrom op (i + 1) (fuel + 1)

/-- `fund_analysis.retry_api_call`-decorated call with budget
`max_retries` loop iterations. -/
def retry_decorator (op : ℕ → ApiResult) (max_retries : ℕ) :
    Except String (Option DataFrame) :=
  decoratorFrom op 0 max_retries

/-- Number of invocations of the wrapped function performed by the
decorator loop. -/
def decoratorCallsFrom (op : ℕ → ApiResult) (i : ℕ) : ℕ → ℕ
  | 0 => 0
  | fuel + 1 =>
    match op i with
    | .ret _ => 1
    | .exn _ => 1 + decoratorCallsFrom op (i + 1) fuel

/-- Number of invocations of the wrapped function performed by a
`retry_api_call`-decorated call. -/
def retry_decorator_count (op : ℕ → ApiResult) (max_retries : ℕ) : ℕ :=
  decoratorCallsFrom op 0 max_retries

/-! ### Concrete fixtures used by witnesses and counterexamples -/

/-- A one-row fund frame with akshare-style columns; used as a cache
payload and as the successful upstream result in examples. -/
def sampleFundDf : DataFrame :=
  { columns := ["基金代码", "基金简称", "单位净值", "日增长率"]
    rows := [[("基金代码", .str "000001"), ("基金简称", .str "样例基金"),
              ("单位净值", .num 1), ("日增长率", .str "1.0")]] }

/-- An upstream call that always raises a connection error. -/
def alwaysConnError : ℕ → ApiResult := fun _ => .exn "Connection aborted"

/-- A fetcher state holding an expired (stale) cached fund payload:
fetched at time 0 with a 300-second TTL, queried at time 1000. -/
def staleFundState : FetcherState :=
  { cache := [("fund_all_data", some sampleFundDf)]
    cacheTime := [("fund_all_data", 0)]
    cacheDuration := 300
    maxRetries := 3 }

/-- A fetcher state with empty caches (fresh instance). -/
def freshFetcherState : FetcherState :=
  { cache := [], cacheTime := [], cacheDuration := 300, maxRetries := 3 }

/-- A fund frame in which two distinct rows carry the same 6-digit
code; used to show the cleaning step does not deduplicate. -/
def dupCodeDf : DataFrame :=
  { columns := ["基金代码", "基金简称"]
    rows := [[("基金代码", .str "000001"), ("基金简称", .str "甲")],
             [("基金代码", .str "000001"), ("基金简称", .str "乙")]] }

/-- The PercentageDrop example frame of the spec: rows A with change
`-5.00%` and B with change `1.2%`. -/
def dropExampleDf : DataFrame :=
  { columns := ["基金代码", "基金简称", "日增长率"]
    rows := [[("基金代码", .str "A"), ("基金简称", .str "甲"), ("日增长率", .str "-5.00%")],
             [("基金代码", .str "B"), ("基金简称", .str "乙"), ("日增长率", .str "1.2%")]] }

/-- The PercentageDrop example rule: threshold 3.0, no code filter. -/
def dropExampleRule : PercentageDropRule := ⟨"drop", 3, []⟩

/-- The PriceThreshold example rule: symbol X, threshold 2.0, below. -/
def thresholdExampleRule : PriceThresholdRule := ⟨"thr", "X", 2, "below"⟩

/-- The rational 1.5, given in lowest terms by its constructor. -/
def q1p5 : ℚ := ⟨3, 2, by norm_num, by norm_num⟩

/-- The rational 2.5, given in lowest terms by its constructor. -/
def q2p5 : ℚ := ⟨5, 2, by norm_num, by norm_num⟩

/-- PriceThreshold example frame with net value 1.5 for symbol X. -/
def thresholdLowDf : DataFrame :=
  { columns := ["基金代码", "基金简称", "单位净值"]
    rows := [[("基金代码", .str "X"), ("基金简称", .str "某"), ("单位净值", .num q1p5)]] }

/-- PriceThreshold example frame with net value 2.5 for symbol X. -/
def thresholdHighDf : DataFrame :=
  { columns := ["基金代码", "基金简称", "单位净值"]
    rows := [[("基金代码", .str "X"), ("基金简称", .str "某"), ("单位净值", .num q2p5)]] }

/-- A frame with two rows matching the threshold rule's symbol X, both
below the threshold but with different net values. -/
def thresholdDupDf : DataFrame :=
  { columns := ["基金代码", "基金简称", "单位净值"]
    rows := [[("基金代码", .str "X"), ("基金简称", .str "某"), ("单位净值", .num 1)],
             [("基金代码", .str "X"), ("基金简称", .str "另"), ("单位净值", .num q1p5)]] }

/-- A further row matching symbol X, appended in the C10 witness. -/
def extraMatchingRow : Row :=
  [("基金代码", .str "X"), ("基金简称", .str "重"), ("单位净值", .num 9)]

/-- A frame whose only column matches none of the rules' field
patterns: every rule's field resolution fails on it. -/
def noFieldsDf : DataFrame :=
  { columns := ["foo"]
    rows := [[("foo", .num 1)]] }

/-- An upstream fund call that succeeds with the sample frame on every
attempt. -/
def opFundOk : ℕ → ApiResult := fun _ => .ret (some sampleFundDf)

/-- The batch query of the spec's unresolvable-identifier example: a
fresh fetcher, a size-1 watchlist whose code `"???"` matches no cleaned
row of the upstream data. -/
def batchExampleResult : BatchResult :=
  batch_query freshFetcherState 0 opFundOk alwaysConnError [⟨"???", "fund"⟩]

/-! ### Helper lemmas -/

/-- The retry loop of `_retry_api_call` performs at most `fuel`
invocations. -/
theorem retryCallsFrom_le (op : ℕ → ApiResult) :
    ∀ fuel i, retryCallsFrom op i fuel ≤ fuel := by
  intro fuel
  induction fuel with
  | zero => intro i; simp [retryCallsFrom]
  | succ n ih =>
    intro i
    rw [retryCallsFrom]
    cases h : apiSuccess (op i) with
    | none =>
      show 1 + retryCallsFrom op (i + 1) n ≤ n + 1
      have := ih (i + 1); omega
    | some df => show 1 ≤ n + 1; omega

/-- The decorator loop performs at most `fuel` invocations. -/
theorem decoratorCallsFrom_le (op : ℕ → ApiResult) :
    ∀ fuel i, decoratorCallsFrom op i fuel ≤ fuel := by
  intro fuel
  induction fuel with
  | zero => intro i; simp [decoratorCallsFrom]
  | succ n ih =>
    intro i
    rw [decoratorCallsFrom]
    cases h : op i with
    | ret v => show 1 ≤ n + 1; omega
    | exn e =>
      show 1 + decoratorCallsFrom op (i + 1) n ≤ n + 1
      have := ih (i + 1); omega

/-- An operation failing on every invocation makes the retry loop
return `None`. -/
theorem retryFrom_none (op : ℕ → ApiResult)
    (h : ∀ j, apiSuccess (op j) = none) :
    ∀ fuel i, retryFrom op i fuel = none := by
  intro fuel
  induction fuel with
  | zero => intro i; rfl
  | succ n ih => intro i; rw [retryFrom, h i]; exact ih (i + 1)

/-- An operation raising on every invocation makes the decorator
re-raise. -/
theorem decoratorFrom_error (op : ℕ → ApiResult)
    (h : ∀ j, ∃ e, op j = .exn e) :
    ∀ fuel i, ∃ e, decoratorFrom op i fuel = .error e := by
  intro fuel
  induction fuel with
  | zero => intro i; exact ⟨"", rfl⟩
  | succ n ih =>
    intro i
    obtain ⟨e, he⟩ := h i
    cases n with
    | zero => exact ⟨e, by rw [decoratorFrom, he]⟩
    | succ m =>
      obtain ⟨e', he'⟩ := ih (i + 1)
      exact ⟨e', by rw [decoratorFrom, he]; exact he'⟩

/-! ### Claim theorems -/

/-- Claim C2: the retrying fetch invokes the wrapped operation at most
its configured attempt budget many times — `max_retries + 1` for
`RobustMarketFetcher._retry_api_call` (whose loop is
`range(max_retries + 1)`) and `max_retries` for the
`fund_analysis.retry_api_call` decorator (whose loop is
`range(max_retries)`) — and an operation that fails on every
invocation yields a failure: `None` from `_retry_api_call` (no cache
is consulted there) and a re-raised exception from the decorator. -/
theorem C2_retry_bound :
    (∀ (op : ℕ → ApiResult) (mr : ℕ), retry_api_call_count op mr ≤ mr + 1)
    ∧ (∀ (op : ℕ → ApiResult) (mr : ℕ), retry_decorator_count op mr ≤ mr)
    ∧ (∀ (op : ℕ → ApiResult) (mr : ℕ), (∀ i, apiSuccess (op i) = none) →
        retry_api_call op mr = none)
    ∧ (∀ (op : ℕ → ApiResult) (mr : ℕ), (∀ i, ∃ e, op i = .exn e) →
        ∃ e, retry_decorator op mr = .error e) := by
  refine ⟨fun op mr => ?_, fun op mr => ?_, fun op mr h => ?_, fun op mr h => ?_⟩
  · exact retryCallsFrom_le op (mr + 1) 0
  · exact decoratorCallsFrom_le op mr 0
  · exact retryFrom_none op h (mr + 1) 0
  · exact decoratorFrom_error op h mr 0

/-- Witness for C2 at a concrete always-raising operation with
`max_retries = 3`. -/
theorem C2_retry_bound_witness :
    retry_api_call_count alwaysConnError 3 ≤ 4
    ∧ retry_decorator_count alwaysConnError 3 ≤ 3
    ∧ retry_api_call alwaysConnError 3 = none
    ∧ ∃ e, retry_decorator alwaysConnError 3 = .error e :=
  ⟨C2_retry_bound.1 alwaysConnError 3,
   C2_retry_bound.2.1 alwaysConnError 3,
   C2_retry_bound.2.2.1 alwaysConnError 3 (fun _ => rfl),
   C2_retry_bound.2.2.2 alwaysConnError 3 (fun _ => ⟨"Connection aborted", rfl⟩)⟩

/-- Claim C6 counterexample: at `now - fetchedAt = ttl` exactly
(entry written at time 0, TTL 300, queried at time 300) the code
reports the entry invalid although `now - fetchedAt > ttl` is false,
so "`isValid` is false exactly when `now - fetchedAt > ttl`" fails:
validity in `_is_cache_valid` is the strict `now - fetchedAt < ttl`. -/
theorem C6_cache_boundary_counterexample :
    is_cache_valid staleFundState 300 "fund_all_data" = false
    ∧ ¬((300 : ℚ) - 0 > staleFundState.cacheDuration) := by
  constructor
  · have : ¬((300 : ℚ) - 0 < 300) := by norm_num
    simp [is_cache_valid, staleFundState, List.lookup, this]
  · show ¬((300 : ℚ) - 0 > 300)
    norm_num

/-- Claim C6 (amended): `put(k, v); get(k)` returns `v` with the stored
timestamp equal to the put call's wall-clock time, and `isValid` is
true exactly when `now - fetchedAt < ttl` (so false when
`now - fetchedAt ≥ ttl`, including equality). -/
theorem C6_cache_roundtrip :
    (∀ (st : FetcherState) (now : ℚ) (k : String),
        is_cache_valid st now k = true ↔
          ∃ t, st.cacheTime.lookup k = some t ∧ now - t < st.cacheDuration)
    ∧ (∀ (st : FetcherState) (now now' : ℚ) (k : String) (v : Option DataFrame),
        (set_cache st now k v).cacheTime.lookup k = some now
        ∧ get_cache (set_cache st now k v) now' k =
            if now' - now < st.cacheDuration then v else none) := by
  constructor
  · intro st now k
    unfold is_cache_valid
    cases h : st.cacheTime.lookup k with
    | none => simp [h]
    | some t => simp [h]
  · intro st now now' k v
    have hlook : (set_cache st now k v).cacheTime.lookup k = some now := by
      simp [set_cache, List.lookup]
    refine ⟨hlook, ?_⟩
    unfold get_cache is_cache_valid
    rw [hlook]
    by_cases h : now' - now < st.cacheDuration
    · have hdur : (set_cache st now k v).cacheDuration = st.cacheDuration := rfl
      simp [set_cache, List.lookup, hdur, h]
    · have hdur : (set_cache st now k v).cacheDuration = st.cacheDuration := rfl
      simp [set_cache, hdur, h]

/-- Witness for C6 (amended): a concrete put at time 50 with TTL 300 is
valid and readable at time 100 and stores timestamp 50. -/
theorem C6_cache_roundtrip_witness :
    is_cache_valid
      { freshFetcherState with cacheTime := [("fund_all_data", 50)] }
      100 "fund_all_data" = true
    ∧ (set_cache freshFetcherState 50 "fund_all_data"
        (some sampleFundDf)).cacheTime.lookup "fund_all_data" = some 50
    ∧ get_cache (set_cache freshFetcherState 50 "fund_all_data"
        (some sampleFundDf)) 100 "fund_all_data" = some sampleFundDf := by
  refine ⟨?_, ?_, ?_⟩
  · exact (C6_cache_roundtrip.1 _ 100 "fund_all_data").mpr
      ⟨50, by simp [freshFetcherState, List.lookup], by norm_num [freshFetcherState]⟩
  · exact (C6_cache_roundtrip.2 freshFetcherState 50 100 "fund_all_data"
      (some sampleFundDf)).1
  · have h := (C6_cache_roundtrip.2 freshFetcherState 50 100 "fund_all_data"
      (some sampleFundDf)).2
    rw [h, if_pos (by norm_num [freshFetcherState])]

/-- Claim C7 counterexample: `"A_B"` matches none of the claim's four
shapes — the alias table is empty, it is not all digits, not an
8-character `sh`/`sz` code, and not all-alphanumeric (the underscore
fails `isalnum`) — yet `resolve_code` resolves it as a global index,
because the source removes underscores before the `isalnum` test. -/
theorem C7_resolve_underscore_counterexample :
    resolve_code [] "A_B" = some ⟨.index, some "global", "A_B", none⟩
    ∧ pyIsDigit "A_B" = false
    ∧ shapeCnIndex "A_B" = false
    ∧ pyIsAlnum "A_B" = false := by
  refine ⟨by decide, by decide, by decide, by decide⟩

/-- Claim C7 (amended): for an input (whitespace-free, so `strip` is
the identity) that misses the alias table, an all-digit string resolves
to a fund whose symbol is the literal digit string; and a string that
additionally fails the `sh`/`sz` shape and the short-token shape —
which, unlike the claim's wording, also admits underscores alongside
uppercase alphanumerics — is unresolved (`None`). -/
theorem C7_resolve_code (aliases : List (String × AliasEntry)) (c : String)
    (ht : pyStrip c = c)
    (ha1 : aliases.lookup c = none)
    (ha2 : aliases.lookup (pyUpper c) = none) :
    (pyIsDigit c = true → resolve_code aliases c = some ⟨.fund, none, c, none⟩)
    ∧ (pyIsDigit c = false → shapeCnIndex c = false → shapeGlobalToken c = false →
        resolve_code aliases c = none) := by
  constructor
  · intro hd
    have hne : ¬(c = "") := by
      intro h
      rw [h] at hd
      exact absurd hd (by decide)
    simp only [resolve_code, ht, if_neg hne, ha1, ha2, if_pos hd]
  · intro hd h8 hg
    by_cases hne : c = ""
    · simp only [resolve_code, ht, if_pos hne]
    · simp only [resolve_code, ht, if_neg hne, ha1, ha2, hd, h8, hg,
        Bool.false_eq_true, if_false]

/-- Witness for C7 (amended): the digit string `"000123"` resolves to a
fund with that literal symbol, and `"???"` (the spec's unresolvable
example) resolves to `None`. -/
theorem C7_resolve_code_witness :
    resolve_code [] "000123" = some ⟨.fund, none, "000123", none⟩
    ∧ resolve_code [] "???" = none :=
  ⟨(C7_resolve_code [] "000123" (by decide) rfl rfl).1 (by decide),
   (C7_resolve_code [] "???" (by decide) rfl rfl).2 (by decide) (by decide) (by decide)⟩

/-- Claim C1 counterexample: a fetcher whose cache holds a stale entry
for the fund key (fetched at time 0, TTL 300, queried at time 1000)
and whose upstream call raises on every attempt returns `None` — not
the cached payload — so no stale fallback (and no age) is produced by
`get_fund_data_robust`. -/
theorem C1_no_stale_fallback_counterexample :
    (get_fund_data_robust staleFundState 1000 alwaysConnError []).1 = none
    ∧ staleFundState.cache.lookup "fund_all_data" = some (some sampleFundDf) := by
  constructor
  · have hval : is_cache_valid staleFundState 1000 "fund_all_data" = false := by
      simp [is_cache_valid, staleFundState, List.lookup]
      norm_num
    have hget : get_cache staleFundState 1000 "fund_all_data" = none := by
      simp [get_cache, hval]
    have hr : retry_api_call alwaysConnError staleFundState.maxRetries = none :=
      retryFrom_none alwaysConnError (fun _ => rfl) _ 0
    simp [get_fund_data_robust, hget, hr]
  · decide

/-- Claim C1 (amended): after a cache miss and exhausted attempts,
`RobustMarketFetcher.get_fund_data_robust` returns `None` regardless of
any expired cache entry; the cached-fallback behaviour lives only in
`SimpleFundDataFetcher.get_open_fund_data`, which returns the cached
payload (with no age information) exactly when the upstream call
raises and a cache entry exists, and returns `None` when the call
returns `None` even if a cache entry exists. -/
theorem C1_stale_fallback :
    (∀ (st : FetcherState) (now : ℚ) (op : ℕ → ApiResult) (codes : List String),
        is_cache_valid st now "fund_all_data" = false →
        (∀ i, apiSuccess (op i) = none) →
        (get_fund_data_robust st now op codes).1 = none)
    ∧ (∀ (st : SimpleFetcherState) (now : ℚ) (df : DataFrame) (msg : String),
        simple_is_cache_valid st now "open_fund" = false →
        st.cache.lookup "open_fund" = some df →
        (get_open_fund_data st now (.exn msg) false).1 = some df)
    ∧ (∀ (st : SimpleFetcherState) (now : ℚ),
        simple_is_cache_valid st now "open_fund" = false →
        (get_open_fund_data st now (.ret none) false).1 = none) := by
  refine ⟨fun st now op codes h1 h2 => ?_, fun st now df msg h1 h2 => ?_,
    fun st now h1 => ?_⟩
  · have hget : get_cache st now "fund_all_data" = none := by
      simp [get_cache, h1]
    have hr : retry_api_call op st.maxRetries = none :=
      retryFrom_none op h2 _ 0
    simp [get_fund_data_robust, hget, hr]
  · simp [get_open_fund_data, h1, h2]
  · simp [get_open_fund_data, h1]

/-- Witness for C1 (amended) at a concrete stale state: the robust
fetcher yields `None`, while the simple fetcher returns its cached
frame on an exception and `None` on an empty return. -/
theorem C1_stale_fallback_witness :
    (get_fund_data_robust staleFundState 1000 alwaysConnError ["000001"]).1 = none
    ∧ (get_open_fund_data ⟨[("open_fund", sampleFundDf)], [("open_fund", 0)]⟩ 1000
        (.exn "Connection aborted") false).1 = some sampleFundDf
    ∧ (get_open_fund_data ⟨[("open_fund", sampleFundDf)], [("open_fund", 0)]⟩ 1000
        (.ret none) false).1 = none := by
  have hval : is_cache_valid staleFundState 1000 "fund_all_data" = false := by
    simp [is_cache_valid, staleFundState, List.lookup]
    norm_num
  have hsval : simple_is_cache_valid ⟨[("open_fund", sampleFundDf)], [("open_fund", 0)]⟩
      1000 "open_fund" = false := by
    simp [simple_is_cache_valid, List.lookup]
    norm_num
  refine ⟨?_, ?_, ?_⟩
  · exact C1_stale_fallback.1 staleFundState 1000 alwaysConnError ["000001"] hval
      (fun _ => rfl)
  · exact C1_stale_fallback.2.1 _ 1000 sampleFundDf "Connection aborted" hsval
      (by simp [List.lookup])
  · exact C1_stale_fallback.2.2 _ 1000 hsval

/-- Keyed lookup commutes with a value-transforming map over an
association list. -/
theorem lookup_map_value (g : String → Value → Value) (k : String) :
    ∀ r : Row, (r.map fun kv => (kv.1, g kv.1 kv.2)).lookup k = (r.lookup k).map (g k) := by
  intro r
  induction r with
  | nil => rfl
  | cons hd t ih =>
    by_cases h : k = hd.1
    · subst h
      simp [List.lookup]
    · have hb : (k == hd.1) = false := by
        simpa using h
      simp [List.lookup, hb, ih]

/-- A row whose read value is a string stores it under the key. -/
theorem lookup_of_rowGet_str {r : Row} {k : String} {s : String}
    (h : rowGet r k = .str s) : r.lookup k = some (.str s) := by
  unfold rowGet at h
  cases hl : r.lookup k with
  | none => rw [hl] at h; exact absurd h (by simp)
  | some v =>
    rw [hl] at h
    simp only [Option.getD_some] at h
    rw [h]

/-- The shape of the row predicate used by the cleaning steps. -/
theorem codeLen6_spec {col : String} {r : Row} (h : codeLen6 col r = true) :
    ∃ s, rowGet r col = .str s ∧ s.length = 6 := by
  unfold codeLen6 at h
  cases hv : rowGet r col with
  | str s =>
    refine ⟨s, rfl, ?_⟩
    rw [hv] at h
    simpa using h
  | na => rw [hv] at h; cases h
  | num q => rw [hv] at h; cases h

/-- Claim C9 counterexample: cleaning a frame in which two distinct
rows carry the same 6-digit code keeps both rows, so codes are not
unique after cleaning (`_clean_fund_data` never deduplicates). -/
theorem C9_duplicate_codes_counterexample :
    (clean_fund_data dupCodeDf).rows.map (fun r => rowGet r "基金代码")
      = [.str "000001", .str "000001"]
    ∧ (clean_fund_data dupCodeDf).rows.length = 2 := by
  constructor <;> decide

/-- Claim C9 (amended): when the code column is present, every row
surviving `_clean_fund_data` / `_clean_stock_data` carries a non-null
6-character string code; uniqueness, however, is not enforced (see the
counterexample), as the cleaning step only drops null and non-6-length
codes. -/
theorem C9_clean_codes (df : DataFrame) :
    (df.columns.contains "基金代码" = true →
      ∀ r ∈ (clean_fund_data df).rows,
        ∃ s, rowGet r "基金代码" = .str s ∧ s.length = 6)
    ∧ (df.columns.contains "代码" = true →
      ∀ r ∈ (clean_stock_data df).rows,
        ∃ s, rowGet r "代码" = .str s ∧ s.length = 6) := by
  constructor
  · intro hcol r hr
    unfold clean_fund_data at hr
    by_cases hemp : df.rows.isEmpty
    · rw [if_pos hemp] at hr
      rw [List.isEmpty_iff.mp hemp] at hr
      cases hr
    · rw [if_neg hemp, hcol] at hr
      simp only [if_true, coerceCols, List.mem_map, List.mem_filter] at hr
      obtain ⟨r', ⟨_, hlen⟩, hmap⟩ := hr
      obtain ⟨s, hget, h6⟩ := codeLen6_spec hlen
      refine ⟨s, ?_, h6⟩
      subst hmap
      unfold rowGet
      rw [lookup_map_value
          (fun k v =>
            if (["日增长值", "日增长率"].contains k && df.columns.contains k) = true then
              coerceNumeric v
            else v)
          "基金代码" r', lookup_of_rowGet_str hget]
      have hcf : (["日增长值", "日增长率"].contains "基金代码") = false := by decide
      simp [hcf]
  · intro hcol r hr
    unfold clean_stock_data at hr
    by_cases hemp : df.rows.isEmpty
    · rw [if_pos hemp] at hr
      rw [List.isEmpty_iff.mp hemp] at hr
      cases hr
    · rw [if_neg hemp, hcol] at hr
      simp only [if_true, coerceCols, List.mem_map, List.mem_filter] at hr
      obtain ⟨r', ⟨_, hlen⟩, hmap⟩ := hr
      obtain ⟨s, hget, h6⟩ := codeLen6_spec hlen
      refine ⟨s, ?_, h6⟩
      subst hmap
      unfold rowGet
      rw [lookup_map_value
          (fun k v =>
            if (["最新价", "涨跌幅", "涨跌额", "成交量", "成交额"].contains k
                && df.columns.contains k) = true then
              coerceNumeric v
            else v)
          "代码" r', lookup_of_rowGet_str hget]
      have hcs : (["最新价", "涨跌幅", "涨跌额", "成交量", "成交额"].contains "代码") = false := by
        decide
      simp [hcs]

/-- Witness for C9 (amended) on the duplicate-code frame: every cleaned
row's code is a 6-character string. -/
theorem C9_clean_codes_witness :
    ∀ r ∈ (clean_fund_data dupCodeDf).rows,
      ∃ s, rowGet r "基金代码" = .str s ∧ s.length = 6 :=
  (C9_clean_codes dupCodeDf).1 (by decide)

/-- A successful column resolution implies the frame had rows. -/
theorem find_column_rows_nonempty {df : DataFrame} {pats : List String}
    {c : String} (h : find_column df pats = some c) :
    df.rows.isEmpty = false := by
  by_cases hemp : df.rows.isEmpty
  · unfold find_column at h
    rw [if_pos hemp] at h
    cases h
  · simpa using hemp

/-- Claim C4: with resolvable code/name/rate columns and no code
filter, the PercentageDrop rule emits exactly one alert, in row order,
for each row whose parsed change percent is `<= -threshold`, and none
for any other row. -/
theorem C4_percentage_drop (rule : PercentageDropRule) (data : DataFrame)
    (cc nc rc : String)
    (hc : get_fund_code_column data = some cc)
    (hn : get_fund_name_column data = some nc)
    (hr : get_change_rate_column data = some rc)
    (hcodes : rule.fund_codes = []) :
    percentageDropCheck rule data =
      data.rows.filterMap fun r =>
        if parse_percentage (rowGet r rc) ≤ -rule.threshold then
          some ⟨rowGet r cc, rowGet r nc, parse_percentage (rowGet r rc), rule.name⟩
        else none := by
  have hemp : data.rows.isEmpty = false := find_column_rows_nonempty hc
  unfold percentageDropCheck
  rw [hemp, hc, hn, hr, hcodes]
  simp

/-- Witness for C4 at the spec's example: threshold 3.0, rows A with
change `-5.00%` and B with change `1.2%`; exactly one alert, for A,
with trigger value `-5.0`. -/
theorem C4_percentage_drop_witness :
    percentageDropCheck dropExampleRule dropExampleDf
      = [⟨.str "A", .str "甲", -5, "drop"⟩] := by
  have hA : parse_percentage (.str "-5.00%") = -5 := by
    have h : parse_percentage (.str "-5.00%")
        = ((-1 : ℚ) * ((5 : ℚ) + (0 : ℚ) / 10 ^ 2)) := rfl
    rw [h]; norm_num
  have hB : ¬(parse_percentage (.str "1.2%") ≤ -(3 : ℚ)) := by
    have h : parse_percentage (.str "1.2%")
        = ((1 : ℚ) * ((1 : ℚ) + (2 : ℚ) / 10 ^ 1)) := rfl
    rw [h]; norm_num
  have heq := C4_percentage_drop dropExampleRule dropExampleDf
    "基金代码" "基金简称" "日增长率" rfl rfl rfl rfl
  rw [heq]
  have e1 : rowGet [("基金代码", Value.str "A"), ("基金简称", Value.str "甲"),
      ("日增长率", Value.str "-5.00%")] "日增长率" = Value.str "-5.00%" := by decide
  have e2 : rowGet [("基金代码", Value.str "B"), ("基金简称", Value.str "乙"),
      ("日增长率", Value.str "1.2%")] "日增长率" = Value.str "1.2%" := by decide
  simp only [dropExampleDf, dropExampleRule, List.filterMap_cons, List.filterMap_nil]
  rw [e1, e2, hA]
  rw [if_pos (show (-5 : ℚ) ≤ -3 by norm_num), if_neg hB]
  decide

/-- Appending per-rule contributions under a fold equals joining the
mapped contributions after the seed. -/
theorem list_foldl_append_join {α β : Type} (f : α → List β) :
    ∀ (l : List α) (init : List β),
      l.foldl (fun acc r => acc ++ f r) init = init ++ (l.map f).flatten := by
  intro l
  induction l with
  | nil => intro init; simp
  | cons hd t ih => intro init; simp [ih]

/-- Claim C5: on a nonempty data set the engine's output is the
concatenation, in registration order, of each rule's alert list, where
a rule that raises contributes the empty list and does not prevent the
remaining rules from running; a rule whose field resolution fails
(here: missing change-rate resp. net-value column) itself returns the
empty list. -/
theorem C5_rule_isolation :
    (∀ (rules : List RuleFun) (data : DataFrame), data.rows ≠ [] →
        check_all_rules rules data
          = (rules.map fun r => (r data).toOption.getD []).flatten)
    ∧ (∀ (rule : PercentageDropRule) (data : DataFrame),
        get_change_rate_column data = none → percentageDropCheck rule data = [])
    ∧ (∀ (rule : PriceThresholdRule) (data : DataFrame),
        get_net_value_column data = none → priceThresholdCheck rule data = []) := by
  refine ⟨fun rules data hne => ?_, fun rule data hrate => ?_, fun rule data hval => ?_⟩
  · have hemp : data.rows.isEmpty = false := by
      cases h : data.rows with
      | nil => exact absurd h hne
      | cons a t => rfl
    unfold check_all_rules
    rw [hemp]
    simpa using list_foldl_append_join (fun r => (r data).toOption.getD []) rules []
  · unfold percentageDropCheck
    by_cases hemp : data.rows.isEmpty = true
    · rw [if_pos hemp]
    · rw [if_neg hemp]
      rcases h1 : get_fund_code_column data with _ | c1 <;>
        rcases h2 : get_fund_name_column data with _ | c2 <;>
          simp [h1, h2, hrate]
  · unfold priceThresholdCheck
    by_cases hemp : data.rows.isEmpty = true
    · rw [if_pos hemp]
    · rw [if_neg hemp]
      rcases h1 : get_fund_code_column data with _ | c1 <;>
        rcases h2 : get_fund_name_column data with _ | c2 <;>
          simp [h1, h2, hval]

/-- Witness for C5: on a frame whose只 column matches no field pattern,
a raising first rule does not stop a second rule from contributing, and
both concrete rule kinds return empty alert lists there. -/
theorem C5_rule_isolation_witness :
    check_all_rules
      [fun _ => Except.error "boom", fun _ => Except.ok [⟨.str "K", .str "K牌", 0, "const"⟩]]
      noFieldsDf
      = [⟨.str "K", .str "K牌", 0, "const"⟩]
    ∧ percentageDropCheck dropExampleRule noFieldsDf = []
    ∧ priceThresholdCheck thresholdExampleRule noFieldsDf = [] := by
  refine ⟨?_, ?_, ?_⟩
  · have h := C5_rule_isolation.1
      [fun _ => Except.error "boom", fun _ => Except.ok [⟨.str "K", .str "K牌", 0, "const"⟩]]
      noFieldsDf (by decide)
    rw [h]; rfl
  · exact C5_rule_isolation.2.1 dropExampleRule noFieldsDf (by decide)
  · exact C5_rule_isolation.2.2 thresholdExampleRule noFieldsDf (by decide)

/-- Claim C8: with resolvable code/name/value columns, the
PriceThreshold rule emits nothing when no row matches its symbol, and
otherwise alerts on the first matching row exactly when
`operator = below ∧ value < threshold` or
`operator = above ∧ value > threshold` — strict comparisons, so
equality never triggers. -/
theorem C8_price_threshold (rule : PriceThresholdRule) (data : DataFrame)
    (cc nc vc : String)
    (hc : get_fund_code_column data = some cc)
    (hn : get_fund_name_column data = some nc)
    (hv : get_net_value_column data = some vc) :
    (data.rows.filter (fun r => decide (rowGet r cc = Value.str rule.fund_code)) = [] →
        priceThresholdCheck rule data = [])
    ∧ (∀ fund rest,
        data.rows.filter (fun r => decide (rowGet r cc = Value.str rule.fund_code))
          = fund :: rest →
        ∀ v, pyFloatValue (rowGet fund vc) = some v →
          priceThresholdCheck rule data =
            if (rule.operator = "below" ∧ v < rule.threshold)
                ∨ (rule.operator = "above" ∧ v > rule.threshold) then
              [⟨rowGet fund cc, rowGet fund nc, v, rule.name⟩]
            else []) := by
  have hemp : data.rows.isEmpty = false := find_column_rows_nonempty hc
  constructor
  · intro hfil
    unfold priceThresholdCheck
    rw [hemp, hc, hn, hv]
    simp [hfil]
  · intro fund rest hfil v hval
    unfold priceThresholdCheck
    rw [hemp, hc, hn, hv]
    simp only [Bool.false_eq_true, if_false, hfil, hval]
    by_cases h1 : rule.operator = "below" ∧ v < rule.threshold
    · rw [if_pos h1, if_pos (Or.inl h1)]
    · rw [if_neg h1]
      by_cases h2 : rule.operator = "above" ∧ v > rule.threshold
      · rw [if_pos h2, if_pos (Or.inr h2)]
      · rw [if_neg h2, if_neg (by rintro (h | h); exacts [h1 h, h2 h])]

/-- Witness for C8 at the spec's example: symbol X, threshold 2.0,
operator below — value 1.5 yields one alert and value 2.5 yields no
alert. -/
theorem C8_price_threshold_witness :
    priceThresholdCheck thresholdExampleRule thresholdLowDf
      = [⟨.str "X", .str "某", q1p5, "thr"⟩]
    ∧ priceThresholdCheck thresholdExampleRule thresholdHighDf = [] := by
  constructor
  · have h := (C8_price_threshold thresholdExampleRule thresholdLowDf
      "基金代码" "基金简称" "单位净值" rfl rfl rfl).2
      [("基金代码", .str "X"), ("基金简称", .str "某"), ("单位净值", .num q1p5)] []
      rfl q1p5 rfl
    rw [h, if_pos (Or.inl ⟨rfl, by decide⟩)]
    decide
  · have h := (C8_price_threshold thresholdExampleRule thresholdHighDf
      "基金代码" "基金简称" "单位净值" rfl rfl rfl).2
      [("基金代码", .str "X"), ("基金简称", .str "某"), ("单位净值", .num q2p5)] []
      rfl q2p5 rfl
    rw [h, if_neg]
    rintro (⟨_, hlt⟩ | ⟨habs, _⟩)
    · exact absurd hlt (by decide)
    · exact absurd habs (by decide)

/-- Column resolution ignores the rows except for emptiness. -/
theorem find_column_rows_agnostic (cols : List String) (pats : List String)
    {rows1 rows2 : List Row}
    (h1 : rows1.isEmpty = false) (h2 : rows2.isEmpty = false) :
    find_column ⟨cols, rows1⟩ pats = find_column ⟨cols, rows2⟩ pats := by
  show (if rows1.isEmpty then none
      else pats.findSome? fun p =>
        if cols.contains p then some p else cols.find? fun col => strContains col p)
    = (if rows2.isEmpty then none
      else pats.findSome? fun p =>
        if cols.contains p then some p else cols.find? fun col => strContains col p)
  rw [h1, h2]

/-- Claim C10: the PriceThreshold rule's alert list never has more than
one element, and when some row already matches the configured symbol,
appending further rows (in particular further matching rows) leaves the
result unchanged — only the first matching row is evaluated. -/
theorem C10_price_threshold_first_match (rule : PriceThresholdRule)
    (data : DataFrame) :
    (priceThresholdCheck rule data).length ≤ 1
    ∧ (∀ (cc : String) (extra : List Row),
        get_fund_code_column data = some cc →
        data.rows.filter (fun r => decide (rowGet r cc = Value.str rule.fund_code)) ≠ [] →
        priceThresholdCheck rule ⟨data.columns, data.rows ++ extra⟩
          = priceThresholdCheck rule data) := by
  constructor
  · unfold priceThresholdCheck
    repeat' split
    all_goals first
    | decide
    | simp
  · intro cc extra hc hfil
    have hemp : data.rows.isEmpty = false := find_column_rows_nonempty hc
    have hne : data.rows ≠ [] := by
      intro h
      rw [h] at hemp
      cases hemp
    have hemp2 : (data.rows ++ extra).isEmpty = false := by
      cases h : data.rows with
      | nil => exact absurd h hne
      | cons a t => rfl
    have hcol : ∀ pats, find_column ⟨data.columns, data.rows ++ extra⟩ pats
        = find_column data pats := by
      intro pats
      show find_column ⟨data.columns, data.rows ++ extra⟩ pats
        = find_column ⟨data.columns, data.rows⟩ pats
      exact find_column_rows_agnostic data.columns pats hemp2 hemp
    obtain ⟨fund, rest, hfr⟩ :
        ∃ f r, data.rows.filter
          (fun r => decide (rowGet r cc = Value.str rule.fund_code)) = f :: r := by
      cases h : data.rows.filter
          (fun r => decide (rowGet r cc = Value.str rule.fund_code)) with
      | nil => exact absurd h hfil
      | cons f r => exact ⟨f, r, rfl⟩
    have hc2 : get_fund_code_column ⟨data.columns, data.rows ++ extra⟩
        = get_fund_code_column data := hcol _
    have hn2 : get_fund_name_column ⟨data.columns, data.rows ++ extra⟩
        = get_fund_name_column data := hcol _
    have hv2 : get_net_value_column ⟨data.columns, data.rows ++ extra⟩
        = get_net_value_column data := hcol _
    unfold priceThresholdCheck
    rw [hc2, hn2, hv2]
    cases hn : get_fund_name_column data with
    | none =>
      rw [hc]
      simp [hemp, hemp2]
    | some nc =>
      cases hv : get_net_value_column data with
      | none =>
        rw [hc]
        simp [hemp, hemp2]
      | some vc =>
        rw [hc]
        simp only [hemp, hemp2, Bool.false_eq_true, if_false, List.filter_append, hfr,
          List.cons_append]

/-- Witness for C10: a frame with two rows matching symbol X keeps the
alert list at length at most one, and appending a further matching row
to the single-match frame leaves the rule's result unchanged. -/
theorem C10_price_threshold_first_match_witness :
    (priceThresholdCheck thresholdExampleRule thresholdDupDf).length ≤ 1
    ∧ priceThresholdCheck thresholdExampleRule
        ⟨thresholdLowDf.columns, thresholdLowDf.rows ++ [extraMatchingRow]⟩
      = priceThresholdCheck thresholdExampleRule thresholdLowDf :=
  ⟨(C10_price_threshold_first_match thresholdExampleRule thresholdDupDf).1,
   (C10_price_threshold_first_match thresholdExampleRule thresholdLowDf).2
     "基金代码" [extraMatchingRow] rfl (by decide)⟩

/-- The success-rate field of an assembled summary satisfies the
found-over-requested formula (0 when nothing was requested). -/
theorem summaryWithRate_rate (t fr sr ff sf : ℕ) :
    (summaryWithRate t fr sr ff sf).success_rate
      = if (summaryWithRate t fr sr ff sf).total_requested = 0 then 0
        else (((summaryWithRate t fr sr ff sf).funds_found
            + (summaryWithRate t fr sr ff sf).stocks_found : ℕ) : ℚ)
          / ((summaryWithRate t fr sr ff sf).total_requested : ℚ) * 100 := by
  unfold summaryWithRate
  by_cases h : t = 0
  · subst h
    simp
  · rw [if_neg h, if_pos (Nat.pos_of_ne_zero h)]

/-- Claim C3: every batch query reports
`success_rate = (funds_found + stocks_found) / total_requested * 100`
with `total_requested` the watchlist length and rate 0 for an empty
watchlist; and (the embedding being total, no exception escapes) the
spec's unresolvable-identifier example — a size-1 watchlist whose code
`"???"` matches no cleaned upstream row — finds nothing and reports
`success_rate = 0`. -/
theorem C3_batch_success_rate :
    (∀ (st : FetcherState) (now : ℚ) (opF opS : ℕ → ApiResult) (wl : List WatchItem),
        (batch_query st now opF opS wl).summary.total_requested = wl.length
        ∧ (batch_query st now opF opS wl).summary.success_rate
            = (if (batch_query st now opF opS wl).summary.total_requested = 0 then 0
               else (((batch_query st now opF opS wl).summary.funds_found
                   + (batch_query st now opF opS wl).summary.stocks_found : ℕ) : ℚ)
                 / ((batch_query st now opF opS wl).summary.total_requested : ℚ) * 100))
    ∧ batchExampleResult.summary.funds_found = 0
    ∧ batchExampleResult.summary.stocks_found = 0
    ∧ batchExampleResult.summary.success_rate = 0 := by
  refine ⟨fun st now opF opS wl => ⟨rfl, summaryWithRate_rate _ _ _ _ _⟩, rfl, rfl, ?_⟩
  have h : batchExampleResult.summary.success_rate
      = ((0 : ℕ) : ℚ) / ((1 : ℕ) : ℚ) * 100 := rfl
  rw [h]
  norm_num

end TickEye
